import Mathlib

/-!
Shallow embedding of the brand-voice dashboard repository
(`app/api/analyze/route.ts`: the Analysis Gateway `POST` handler with its
`analyzeWithOpenAI` helper, and the Dashboard page's `callAnalyzeAPI`,
`handleAnalyze` and `mockAnalysis` functions).

JavaScript strings are modelled by `String`/`List Char`; JavaScript numbers
appearing in the fallback scorer are exact decimals, modelled by `ℚ`;
`undefined`/absent JSON fields are modelled by `Option`; thrown exceptions
are modelled by explicit alternative constructors on the functions'
result types.
-/

namespace BrandVoice

/-! ### Character-list utilities (JS regex/replace semantics on ASCII text) -/

/-- Lower-case every character, modelling the case-folding done by a
JavaScript regex `i` flag on ASCII text. -/
def lowerList (cs : List Char) : List Char := cs.map Char.toLower

/-- Boolean prefix test on character lists. -/
def isPrefixB : List Char → List Char → Bool
  | [], _ => true
  | _ :: _, [] => false
  | p :: ps, h :: hs => p == h && isPrefixB ps hs

/-- Boolean substring test: does `pat` occur contiguously in the haystack? -/
def listContains (pat : List Char) : List Char → Bool
  | [] => isPrefixB pat []
  | c :: cs => isPrefixB pat (c :: cs) || listContains pat cs

/-- Embeds a JavaScript alternation regex test `/p1|p2|.../i.test(s)`:
some (lower-case) pattern occurs case-insensitively in `s`. -/
def testCI (pats : List String) (s : String) : Bool :=
  pats.any (fun p => listContains p.toList (lowerList s.toList))

/-- The pattern `['g','u','y','s']` of the regex `/guys/gi`. -/
def guysL : List Char := ['g', 'u', 'y', 's']

/-- Embeds `inputText.replace(/guys/gi, "team")`: left-to-right,
non-overlapping, case-insensitive global replacement of `guys` by `team`. -/
def replaceGuysCI : List Char → List Char
  | [] => []
  | c :: cs =>
    if isPrefixB guysL (lowerList (c :: cs)) then
      't' :: 'e' :: 'a' :: 'm' :: replaceGuysCI (cs.drop 3)
    else
      c :: replaceGuysCI cs
termination_by cs => cs.length
decreasing_by
  · simp only [List.length_drop, List.length_cons]
    omega
  · simp only [List.length_cons]
    omega

/-- Embeds the JavaScript single-character split `text.split(" ")`: the list
of fields between occurrences of the space character, keeping empty fields
(so the empty text yields one empty field). -/
def splitOnSpace : List Char → List (List Char)
  | [] => [[]]
  | c :: cs =>
    match splitOnSpace cs with
    | [] => [[c]]
    | f :: fs => if c = ' ' then [] :: f :: fs else (c :: f) :: fs

/-- Embeds `inputText.split(" ").length` from `mockAnalysis` (line 258 of the
source): the number of fields obtained by splitting on the single space
character, counting empty fields, i.e. (number of spaces) + 1. -/
def wordCount (s : String) : Nat := (splitOnSpace s.toList).length

/-- Helper for `whitespaceWordCount`: counts maximal runs of non-whitespace
characters; the flag records whether the scan is currently inside a run. -/
def wsTokenCountAux : Bool → List Char → Nat
  | _, [] => 0
  | inTok, c :: cs =>
    if c.isWhitespace then wsTokenCountAux false cs
    else (if inTok then 0 else 1) + wsTokenCountAux true cs

/-- Modelled from the spec: `wordCount` = "number of whitespace-delimited
tokens", i.e. the number of maximal non-whitespace runs. Used only to compare
the spec's readability formula against the source's. -/
def whitespaceWordCount (s : String) : Nat := wsTokenCountAux false s.toList

/-- Embeds JavaScript `String.prototype.trim` (on ASCII text): remove leading
and trailing whitespace characters. -/
def trimList (cs : List Char) : List Char :=
  ((cs.dropWhile Char.isWhitespace).reverse.dropWhile Char.isWhitespace).reverse

/-- String-level version of `trimList`, embedding `s.trim()`. -/
def jsTrim (s : String) : String := String.mk (trimList s.toList)

/-! ### The fallback scorer `mockAnalysis` and its result shape -/

/-- An inclusivity issue entry, as built by `mockAnalysis`. -/
structure Issue where
  index : Nat
  text : String
  suggestion : String
deriving DecidableEq

/-- The `sentiment` sub-object of the fallback result. -/
structure Sentiment where
  label : String
  score : ℚ
deriving DecidableEq

/-- The `tone` sub-object of the fallback result. -/
structure Tone where
  formality : ℚ
  confidence : ℚ
  positivity : ℚ
deriving DecidableEq

/-- The `inclusivity` sub-object of the fallback result. -/
structure Inclusivity where
  score : ℚ
  issues : List Issue
deriving DecidableEq

/-- The object literal returned by `mockAnalysis`. Field names follow the
source: the rewritten text is stored under the snake_case key
`improved_text` (source line 271). -/
structure AnalysisResult where
  sentiment : Sentiment
  readability : ℚ
  tone : Tone
  inclusivity : Inclusivity
  improved_text : String
deriving DecidableEq

/-- The top-level keys of the object literal returned by `mockAnalysis`
(source lines 260-272), in source order. -/
def mockAnalysisKeys : List String :=
  ["sentiment", "readability", "tone", "inclusivity", "improved_text"]

/-- Embeds the `mockAnalysis` function of the Dashboard component
(the deterministic local fallback scorer, source lines 244-273). -/
def mockAnalysis (inputText : String) : AnalysisResult :=
  let positivity : ℚ :=
    if testCI ["thank", "thanks", "excited", "thrill", "great"] inputText then 0.8 else 0.45
  let formality : ℚ :=
    if testCI ["we are", "our team", "announce"] inputText then 0.7 else 0.4
  let confidence : ℚ :=
    if testCI ["will", "guarantee", "definitely"] inputText then 0.75 else 0.55
  let inclusivityIssues : List Issue :=
    if testCI ["guys", "ladies", "manpower"] inputText then
      [{ index := 0, text := "guys", suggestion := "team" }]
    else []
  let readability : ℚ := max 30 (90 - (wordCount inputText : ℚ) / 2)
  { sentiment :=
      { label := if positivity > 0.6 then "POSITIVE" else "NEUTRAL"
        score := positivity }
    readability := readability
    tone := { formality := formality, confidence := confidence, positivity := positivity }
    inclusivity :=
      { score := 1 - (inclusivityIssues.length : ℚ) * 0.2
        issues := inclusivityIssues }
    improved_text := "Improved (mock): " ++ String.mk (replaceGuysCI inputText.toList) }

/-- The apostrophe character, used to spell test inputs containing one. -/
def apos : Char := Char.ofNat 39

/-- The scenario input of spec §8.5:
`We are thrilled to announce our guys' update. Thanks team!`. -/
def c5Input : String :=
  "We are thrilled to announce our guys" ++ String.singleton apos ++ " update. Thanks team!"

/-! ### The Analysis Gateway (`POST` and `analyzeWithOpenAI` in route.ts) -/

/-- The `message` object inside an upstream chat-completion choice; its
`content` field may be absent (`undefined`). -/
structure OpenAIMessage where
  content : Option String
deriving DecidableEq

/-- One element of the upstream response's `choices` array; its `message`
field may be absent (`undefined`). -/
structure OpenAIChoice where
  message : Option OpenAIMessage
deriving DecidableEq

/-- Outcome of the gateway's single `axios.post` call: either the promise
resolves with a 2xx body carrying a `choices` array, or it rejects (non-2xx
status, timeout, network failure), carrying the thrown `error.message`. -/
inductive UpstreamOutcome
  | ok (choices : List OpenAIChoice)
  | fail (errMsg : String)
deriving DecidableEq

/-- The JavaScript value that `POST` ends up holding in its `result`
variable: `undefined` (provider not "openai"), a string (the cleaned
upstream content), or — on a caught upstream error — the `NextResponse`
object that `analyzeWithOpenAI` builds with the given status and error
message and returns as a plain value. Serialized into the 200 body, that
response object becomes an empty JSON object. -/
inductive DataVal
  | undef
  | str (s : String)
  | errResponse (status : Nat) (errMsg : String)
deriving DecidableEq

/-- The JSON body of the gateway's own HTTP response: either an error body
(serialized from a literal with an `error` key) or a data body (serialized
from a literal with a `data` key holding a `DataVal`). -/
inductive HttpBody
  | errorBody (error : String)
  | dataBody (data : DataVal)
deriving DecidableEq

/-- An HTTP response of the gateway: status code and JSON body. -/
structure HttpResponse where
  status : Nat
  body : HttpBody
deriving DecidableEq

/-- The two-character string consisting of an opening and a closing curly
brace: the literal default `"\x7b\x7d"` on source line 72. -/
def emptyJsonObj : String := "\x7b\x7d"

/-- Stands for the `message` of the TypeError thrown when
`response.data.choices[0]` is `undefined` and `.message` is read from it
(source line 72); its precise wording is runtime-specific and no theorem
depends on it. -/
def typeErrorMsg : String := "TypeError: cannot read message of undefined"

/-- Boolean suffix test on character lists. -/
def isSuffixB (pat hay : List Char) : Bool := isPrefixB pat.reverse hay.reverse

/-- Embeds source lines 75-78: remove a leading code-fence marker matched by
the regex `/^```(json)?/i`, then a trailing one matched by `/```$/i`, then
trim. -/
def stripFences (raw : String) : String :=
  let cs := raw.toList
  let s1 :=
    if lowerList (cs.take 7) = "```json".toList then cs.drop 7
    else if cs.take 3 = "```".toList then cs.drop 3
    else cs
  let s2 := if isSuffixB "```".toList s1 then s1.take (s1.length - 3) else s1
  String.mk (trimList s2)

/-- Embeds `analyzeWithOpenAI` (source lines 5-88). The prompt embeds the
text, but the function's result depends on the text only through the
exogenous upstream outcome, which is passed explicitly. On line 72 the raw
content is `choices[0].message?.content?.trim() || "\x7b\x7d"`: an absent
`message` or `content`, or content trimming to the empty string, falls back
to the two-character brace string; an empty `choices` array makes the
unguarded `choices[0].message` access throw, and the `catch` turns any
thrown error into a status-500 `NextResponse` value that is returned (not
thrown) to the caller. -/
def analyzeWithOpenAI (_text : String) (up : UpstreamOutcome) : DataVal :=
  match up with
  | .fail msg => .errResponse 500 msg
  | .ok [] => .errResponse 500 typeErrorMsg
  | .ok (c :: _) =>
    let raw : String :=
      match c.message with
      | none => emptyJsonObj
      | some m =>
        match m.content with
        | none => emptyJsonObj
        | some s => if jsTrim s = "" then emptyJsonObj else jsTrim s
    .str (stripFences raw)

/-- Embeds the `POST` handler (source lines 91-113). The request body fields
`text` and `provider` are modelled as optional strings (`none` = absent);
`provider` defaults to "huggingface". The guard is the JavaScript truthiness
test `if (!text)`, which rejects only an absent or empty string — no
trimming. Only the "openai" branch assigns `result`; any other provider
leaves it `undefined`. The returned Bool records whether the upstream HTTP
call was issued. -/
def gatewayPOST (text : Option String) (provider : Option String)
    (up : UpstreamOutcome) : HttpResponse × Bool :=
  if text = none ∨ text = some "" then
    (⟨400, .errorBody "Missing text"⟩, false)
  else
    let p := provider.getD "huggingface"
    if p = "openai" then
      (⟨200, .dataBody (analyzeWithOpenAI (text.getD "") up)⟩, true)
    else
      (⟨200, .dataBody .undef⟩, false)

/-! ### The Dashboard Client (`callAnalyzeAPI` and `handleAnalyze`) -/

/-- The parsed JSON body of the gateway response as the client sees it:
only its `data` field is read, which may be absent (`undefined`, as in the
gateway's `error` bodies). The present case is kept opaque as the raw value. -/
structure GatewayJson where
  data : Option String
deriving DecidableEq

/-- Outcome of the client's `fetch` of /api/analyze: the promise rejects
(network failure), or a response of some status arrives whose body either
fails to parse as JSON (`resp.json()` throws, modelled by `none`) or parses
to a `GatewayJson`. `fetch` does not reject on non-2xx statuses. -/
inductive FetchOutcome
  | throwNetwork
  | resp (status : Nat) (parsed : Option GatewayJson)
deriving DecidableEq

/-- The value returned by `callAnalyzeAPI`: `undefined` (the parsed body had
no `data` field), the remote `data` value, or the local fallback result. -/
inductive ClientReturn
  | undef
  | remote (v : String)
  | fallback (a : AnalysisResult)
deriving DecidableEq

/-- Embeds `callAnalyzeAPI` (source lines 187-225): the `catch` branch —
reached only when `fetch` rejects or `resp.json()` throws — substitutes
`mockAnalysis`; otherwise `json.data` is returned as-is, even when the
response status is not 2xx or `data` is absent. -/
def callAnalyzeAPI (inputText : String) (f : FetchOutcome) : ClientReturn :=
  match f with
  | .throwNetwork => .fallback (mockAnalysis inputText)
  | .resp _ none => .fallback (mockAnalysis inputText)
  | .resp _ (some j) =>
    match j.data with
    | none => .undef
    | some v => .remote v

/-- The React state touched by `handleAnalyze`: the input text and the
`loading`, `result` and `error` state variables (`none` = null). -/
structure ClientState where
  text : String
  loading : Bool
  result : Option ClientReturn
  error : Option String
deriving DecidableEq

/-- The observable effects of one `handleAnalyze` run: the final state, and
whether `fetch` was issued and the `setLoading` / `setResult` setters were
ever called during the run. -/
structure StepOutcome where
  state : ClientState
  fetchIssued : Bool
  setLoadingCalled : Bool
  setResultCalled : Bool
deriving DecidableEq

/-- Embeds `handleAnalyze` (source lines 227-242) together with the state
effects of the `callAnalyzeAPI` it awaits: on empty trimmed text it sets the
validation message and returns early; otherwise it clears the error,
`callAnalyzeAPI` toggles `loading` (true, then false in `finally`), and the
returned data is stored with `setResult`. -/
def handleAnalyze (s : ClientState) (f : FetchOutcome) : StepOutcome :=
  let trimmed := jsTrim s.text
  if trimmed = "" then
    ⟨{ s with error := some "Please paste text or a URL to analyze." }, false, false, false⟩
  else
    ⟨{ s with error := none
              loading := false
              result := some (callAnalyzeAPI trimmed f) },
      true, true, true⟩
/-! ### Helper lemmas -/

/-- Stripping code fences leaves the two-character brace string unchanged. -/
theorem stripFences_emptyJsonObj : stripFences emptyJsonObj = emptyJsonObj := by decide

/-- When `guys` does not occur case-insensitively, `replace(/guys/gi, "team")`
leaves the text unchanged. -/
theorem replaceGuysCI_of_not_contains :
    ∀ cs : List Char, listContains guysL (lowerList cs) = false → replaceGuysCI cs = cs
  | [], _ => by simp [replaceGuysCI]
  | c :: cs, h => by
    simp only [lowerList, List.map_cons, listContains, Bool.or_eq_false_iff] at h
    simp only [replaceGuysCI, lowerList, List.map_cons, h.1, if_false]
    exact congrArg (c :: ·) (replaceGuysCI_of_not_contains cs h.2)

/-! ### Claim C1 -/

/-- C1 counterexample: a POST with non-empty text and provider omitted
(defaulting to "huggingface") issues no upstream call at all and returns 200
with `data` left `undefined` — not a sentiment-classification endpoint's
label/score array. -/
theorem C1_counterexample :
    gatewayPOST (some "hello") none (.ok []) = (⟨200, .dataBody .undef⟩, false) := by decide

/-- C1 (amended): for every POST request with non-empty text and provider
omitted or equal to "huggingface", the gateway contacts no upstream endpoint
and responds 200 with `data` undefined (absent from the serialized body). -/
theorem C1_huggingface_no_upstream_call (t : String) (h : t ≠ "")
    (provider : Option String) (up : UpstreamOutcome)
    (hp : provider = none ∨ provider = some "huggingface") :
    gatewayPOST (some t) provider up = (⟨200, .dataBody .undef⟩, false) := by
  cases hp with
  | inl hp => subst hp; simp [gatewayPOST, h]
  | inr hp => subst hp; simp [gatewayPOST, h]

/-- C1 witness: the amended statement at text "hello", provider
"huggingface". -/
theorem C1_witness :
    gatewayPOST (some "hello") (some "huggingface") (.fail "x")
      = (⟨200, .dataBody .undef⟩, false) :=
  C1_huggingface_no_upstream_call "hello" (by decide) _ _ (Or.inr rfl)

/-! ### Claim C2 -/

/-- C2 (code bug evidence): on an upstream failure in the "openai" path, the
`catch` inside `analyzeWithOpenAI` builds a status-500 response carrying the
upstream error text but returns it as a value, so `POST` wraps it in a
status-200 response: the gateway's own HTTP status is 200, not the 500 the
spec describes. -/
theorem C2_upstream_failure_wrapped_in_200 :
    gatewayPOST (some "hello") (some "openai") (.fail "boom")
      = (⟨200, .dataBody (.errResponse 500 "boom")⟩, true) := by decide

/-! ### Claim C3 -/

/-- C3 counterexample: when the gateway answers HTTP 500 with a JSON body
that has no `data` field, `fetch` does not throw, so the client returns
`undefined` — not the fallback scorer's result. -/
theorem C3_counterexample :
    callAnalyzeAPI "hello" (.resp 500 (some ⟨none⟩)) = .undef
    ∧ callAnalyzeAPI "hello" (.resp 500 (some ⟨none⟩)) ≠ .fallback (mockAnalysis "hello") := by
  refine ⟨rfl, ?_⟩
  rw [show callAnalyzeAPI "hello" (.resp 500 (some ⟨none⟩)) = .undef from rfl]
  exact fun hcontra => nomatch hcontra

/-- C3 (amended): the client substitutes the local fallback result exactly
when the fetch promise rejects or the response body fails to parse as JSON;
any response with a parseable JSON body — whatever its HTTP status — yields
the body's `data` field as-is, which is `undefined` when absent. -/
theorem C3_fallback_only_on_thrown_errors (t : String) (st : Nat) (j : GatewayJson) :
    callAnalyzeAPI t .throwNetwork = .fallback (mockAnalysis t)
    ∧ callAnalyzeAPI t (.resp st none) = .fallback (mockAnalysis t)
    ∧ callAnalyzeAPI t (.resp st (some j))
        = (match j.data with
           | none => ClientReturn.undef
           | some v => ClientReturn.remote v) := by
  refine ⟨rfl, rfl, ?_⟩
  cases j with
  | mk d => cases d <;> rfl

/-! ### Claim C4 -/

/-- C4 counterexample: a whitespace-only text (" ") is truthy in JavaScript,
so the gateway does not respond 400; with provider "openai" it issues the
upstream call. -/
theorem C4_counterexample :
    (gatewayPOST (some " ") (some "openai") (.fail "upstream down")).1.status = 200
    ∧ (gatewayPOST (some " ") (some "openai") (.fail "upstream down")).2 = true := by decide

/-- C4 (amended): the gateway responds 400 with body error "Missing text"
and contacts no upstream exactly when the request's `text` is absent or the
empty string (JavaScript-falsy); the text is not trimmed first. -/
theorem C4_missing_text_validation (text : Option String) (provider : Option String)
    (up : UpstreamOutcome) (h : text = none ∨ text = some "") :
    gatewayPOST text provider up = (⟨400, .errorBody "Missing text"⟩, false) := by
  unfold gatewayPOST
  rw [if_pos h]

/-- C4 witness: the amended statement at an empty text field. -/
theorem C4_witness :
    gatewayPOST (some "") none (.fail "x") = (⟨400, .errorBody "Missing text"⟩, false) :=
  C4_missing_text_validation _ _ _ (Or.inr rfl)

/-! ### Claim C5 -/

/-- C5: on the spec §8.5 scenario input, the fallback scorer yields
positivity 0.8, formality 0.7, confidence 0.55, a single inclusivity issue
(index 0, text "guys", suggestion "team") and inclusivity score 0.8. -/
theorem C5_scenario_fallback_values :
    (mockAnalysis c5Input).tone.positivity = 0.8
    ∧ (mockAnalysis c5Input).tone.formality = 0.7
    ∧ (mockAnalysis c5Input).tone.confidence = 0.55
    ∧ (mockAnalysis c5Input).inclusivity.issues
        = [{ index := 0, text := "guys", suggestion := "team" }]
    ∧ (mockAnalysis c5Input).inclusivity.score = 0.8 := by
  have h1 : testCI ["thank", "thanks", "excited", "thrill", "great"] c5Input = true := by decide
  have h2 : testCI ["we are", "our team", "announce"] c5Input = true := by decide
  have h3 : testCI ["will", "guarantee", "definitely"] c5Input = false := by decide
  have h4 : testCI ["guys", "ladies", "manpower"] c5Input = true := by decide
  refine ⟨?_, ?_, ?_, ?_, ?_⟩ <;> simp [mockAnalysis, h1, h2, h3, h4] <;> norm_num

/-! ### Claim C6 -/

/-- C6 counterexample: on the input "a\nb" the source counts words by
splitting on the single space character (1 field), not on whitespace
(2 tokens), so the readability differs from the claimed formula: the code
yields 89.5 where the whitespace-token formula yields 89. -/
theorem C6_counterexample :
    (mockAnalysis "a\nb").readability
      ≠ max 30 (90 - (whitespaceWordCount "a\nb" : ℚ) / 2) := by
  have h1 : wordCount "a\nb" = 1 := by decide
  have h2 : whitespaceWordCount "a\nb" = 2 := by decide
  simp [mockAnalysis, h1, h2, max_def]
  norm_num

/-- C6 (amended): the fallback readability equals max(30, 90 - n/2) where n
is the number of fields of the JavaScript split on the single space
character (spaces + 1, counting empty fields); hence it is at least 30 on
every input and equals exactly 90 - n/2 whenever that value is at least
30. -/
theorem C6_readability_formula (t : String) :
    (mockAnalysis t).readability = max 30 (90 - (wordCount t : ℚ) / 2)
    ∧ 30 ≤ (mockAnalysis t).readability
    ∧ ((30:ℚ) ≤ 90 - (wordCount t : ℚ) / 2 →
        (mockAnalysis t).readability = 90 - (wordCount t : ℚ) / 2) := by
  refine ⟨rfl, le_max_left _ _, fun h => max_eq_right h⟩

/-- C6 witness: the amended statement at "a b", whose two fields give
readability 89. -/
theorem C6_witness :
    (mockAnalysis "a b").readability = 90 - (wordCount "a b" : ℚ) / 2 :=
  (C6_readability_formula "a b").2.2
    (by rw [show wordCount "a b" = 2 from by decide]; norm_num)

/-! ### Claim C7 -/

/-- C7: for every non-empty input, the fallback inclusivity issues are the
single entry (index 0, text "guys", suggestion "team") when the text matches
guys/ladies/manpower case-insensitively and empty otherwise; the score is
1 - 0.2 times the number of issues, hence 1 or 0.8. -/
theorem C7_inclusivity_issues (t : String) (h : t ≠ "") :
    (mockAnalysis t).inclusivity.issues
      = (if testCI ["guys", "ladies", "manpower"] t
          then [{ index := 0, text := "guys", suggestion := "team" }] else ([] : List Issue))
    ∧ (mockAnalysis t).inclusivity.score
        = 1 - 0.2 * ((mockAnalysis t).inclusivity.issues.length : ℚ)
    ∧ ((mockAnalysis t).inclusivity.score = 1 ∨ (mockAnalysis t).inclusivity.score = 0.8) := by
  cases hc : testCI ["guys", "ladies", "manpower"] t
  · refine ⟨?_, ?_, Or.inl ?_⟩ <;> simp [mockAnalysis, hc] <;> norm_num
  · refine ⟨?_, ?_, Or.inr ?_⟩ <;> simp [mockAnalysis, hc] <;> norm_num

/-- C7 witness: the score disjunction at the issue-free input
"hello team". -/
theorem C7_witness :
    (mockAnalysis "hello team").inclusivity.score = 1
    ∨ (mockAnalysis "hello team").inclusivity.score = 0.8 :=
  (C7_inclusivity_issues "hello team" (by decide)).2.2

/-! ### Claim C8 -/

/-- C8 counterexample: the object returned by `mockAnalysis` has no key
named "improvedText"; the rewritten text is stored under the snake_case key
"improved_text". -/
theorem C8_counterexample :
    ¬ ("improvedText" ∈ mockAnalysisKeys) ∧ "improved_text" ∈ mockAnalysisKeys := by decide

/-- C8 (amended): for every input text, the fallback result's rewritten text
lives in the field named `improved_text` (not `improvedText`) and equals
"Improved (mock): " followed by the input with every case-insensitive
occurrence of "guys" replaced by "team"; in particular, when "guys" does not
occur, the suffix is the input unchanged. -/
theorem C8_improved_text_field (t : String) :
    (mockAnalysis t).improved_text = "Improved (mock): " ++ String.mk (replaceGuysCI t.toList)
    ∧ "improved_text" ∈ mockAnalysisKeys
    ∧ "improvedText" ∉ mockAnalysisKeys
    ∧ (listContains guysL (lowerList t.toList) = false →
        (mockAnalysis t).improved_text = "Improved (mock): " ++ t) := by
  refine ⟨rfl, by decide, by decide, fun h => ?_⟩
  show "Improved (mock): " ++ String.mk (replaceGuysCI t.toList) = "Improved (mock): " ++ t
  rw [replaceGuysCI_of_not_contains _ h]
  rfl

/-- C8 witness: the amended statement at "Hello team", which contains no
occurrence of "guys". -/
theorem C8_witness :
    (mockAnalysis "Hello team").improved_text = "Improved (mock): " ++ "Hello team" :=
  (C8_improved_text_field "Hello team").2.2.2 (by decide)

/-! ### Claim C9 -/

/-- C9: when the input text trims to the empty string, `handleAnalyze` only
sets the validation error message and returns: the displayed result and the
loading flag are left unchanged, `setResult` and `setLoading` are never
called, and no network call is made. -/
theorem C9_empty_input_frame (s : ClientState) (f : FetchOutcome) (h : jsTrim s.text = "") :
    (handleAnalyze s f).state.result = s.result
    ∧ (handleAnalyze s f).state.loading = s.loading
    ∧ (handleAnalyze s f).state.error = some "Please paste text or a URL to analyze."
    ∧ (handleAnalyze s f).setResultCalled = false
    ∧ (handleAnalyze s f).setLoadingCalled = false
    ∧ (handleAnalyze s f).fetchIssued = false := by
  simp [handleAnalyze, h]

/-- C9 witness: the statement at a whitespace-only input text. -/
theorem C9_witness :
    (handleAnalyze ⟨"   ", false, none, none⟩ .throwNetwork).state.result
        = (none : Option ClientReturn)
    ∧ (handleAnalyze ⟨"   ", false, none, none⟩ .throwNetwork).state.loading = false
    ∧ (handleAnalyze ⟨"   ", false, none, none⟩ .throwNetwork).state.error
        = some "Please paste text or a URL to analyze."
    ∧ (handleAnalyze ⟨"   ", false, none, none⟩ .throwNetwork).setResultCalled = false
    ∧ (handleAnalyze ⟨"   ", false, none, none⟩ .throwNetwork).setLoadingCalled = false
    ∧ (handleAnalyze ⟨"   ", false, none, none⟩ .throwNetwork).fetchIssued = false :=
  C9_empty_input_frame ⟨"   ", false, none, none⟩ .throwNetwork (by decide)

/-! ### Claim C10 -/

/-- C10 counterexample: when the upstream 2xx response has an empty
`choices` array — one way of lacking `choices[0].message.content` — the
unguarded access throws, the `catch` yields a 500 response value, and `POST`
returns 200 whose `data` is that serialized response object, not the
two-character brace string. -/
theorem C10_counterexample :
    gatewayPOST (some "hi") (some "openai") (.ok [])
      = (⟨200, .dataBody (.errResponse 500 typeErrorMsg)⟩, true)
    ∧ (gatewayPOST (some "hi") (some "openai") (.ok [])).1.body
        ≠ HttpBody.dataBody (.str emptyJsonObj) := by decide

/-- C10 (amended): in the "openai" path, when `choices[0]` exists but its
`message` is absent, or the message's `content` is absent, or the content
trims to the empty string, the gateway does not error: it responds 200 with
`data` equal to the two-character brace string. -/
theorem C10_missing_content_returns_empty_object (t : String) (h : t ≠ "")
    (first : OpenAIChoice) (rest : List OpenAIChoice)
    (hc : first.message = none
        ∨ ∃ m, first.message = some m
            ∧ (m.content = none ∨ ∃ s, m.content = some s ∧ jsTrim s = "")) :
    gatewayPOST (some t) (some "openai") (.ok (first :: rest))
      = (⟨200, .dataBody (.str emptyJsonObj)⟩, true) := by
  have hval : analyzeWithOpenAI t (.ok (first :: rest)) = .str emptyJsonObj := by
    rcases hc with hm | ⟨m, hm, hc⟩
    · simp [analyzeWithOpenAI, hm, stripFences_emptyJsonObj]
    · rcases hc with hcn | ⟨s, hcs, hst⟩
      · simp [analyzeWithOpenAI, hm, hcn, stripFences_emptyJsonObj]
      · simp [analyzeWithOpenAI, hm, hcs, hst, stripFences_emptyJsonObj]
  simp [gatewayPOST, h, hval]

/-- C10 witness: the amended statement with one choice whose message is
absent. -/
theorem C10_witness :
    gatewayPOST (some "hi") (some "openai") (.ok [⟨none⟩])
      = (⟨200, .dataBody (.str emptyJsonObj)⟩, true) :=
  C10_missing_content_returns_empty_object "hi" (by decide) ⟨none⟩ [] (Or.inl rfl)

end BrandVoice
